import Mathlib

/-!
# go-rknnlite: the RGA resize shim (preprocess/rga_resize.cpp)

A shallow embedding of the four C entry points `resize_rga`,
`resize_rga_init`, `resize_rga_frame` and `resize_rga_deinit`.

The vendor driver (librga, im2d API) is an external oracle: every answer it
gives may depend on the whole history of calls made so far.  The shim's
effect on the outside world is the chronological list of driver calls it
makes (the trace); its own memory is the five file-level statics.
-/

namespace RgaResize

/-! ## Vendor constants and types (im2d headers, not part of the repository sources) -/

/-- Modelled from the spec: the vendor enum IM_STATUS is declared in the im2d
headers, which are not under src/.  A status is represented by its integer
value, which is what the cast to int in the shim yields.  The generic driver
failure IM_STATUS_FAILED has the integer value 0 in the vendor enum. -/
def IM_STATUS_FAILED : Int := 0

/-- Modelled from the spec: the driver's "success" status, returned by a
successful im2d operation; its integer value in the vendor enum is 1. -/
def IM_STATUS_SUCCESS : Int := 1

/-- Modelled from the spec: the status returned by a passing geometry/format
check; its integer value in the vendor enum is 2. -/
def IM_STATUS_NOERROR : Int := 2

/-- Modelled from the spec: the vendor interpolation modes; the shim only ever
passes INTER_LINEAR ("linear interpolation"). -/
inductive InterMode where
  | INTER_NEAREST
  | INTER_LINEAR
  | INTER_CUBIC
deriving DecidableEq

/-- Modelled from the spec: the vendor buffer wrapper rga_buffer_t, reduced to
what wrapbuffer_handle is given: the driver handle, width, height and
pixel-format tag. -/
structure rga_buffer_t where
  handle : Int
  width : Int
  height : Int
  format : Int
deriving DecidableEq

/-- Modelled from the spec: the vendor rectangle im_rect, x, y, width, height. -/
structure im_rect where
  x : Int
  y : Int
  width : Int
  height : Int
deriving DecidableEq

/-- Modelled from the spec: wrapbuffer_handle builds the wrapper of a handle
with the given geometry and format tag. -/
def wrapbuffer_handle (handle width height format : Int) : rga_buffer_t :=
  ⟨handle, width, height, format⟩

/-! ## Driver calls and the driver as an oracle -/

/-- One call of the vendor API, with its arguments and (where the shim reads
it) its result.  Handles and statuses are integers; the null handle is 0. -/
inductive Event where
  | importbuffer_virtualaddr (va size ret : Int)
  | wrapbuffer_handle (handle width height format : Int)
  | imcheck (src dst : rga_buffer_t) (src_rect dst_rect : im_rect)
      (mode_usage : InterMode) (ret : Int)
  | imresize (src dst : rga_buffer_t) (fx fy : Int) (interpolation : InterMode)
      (sync : Int) (ret : Int)
  | releasebuffer_handle (handle : Int)
deriving DecidableEq

/-- The driver: what each vendor call answers, given the history of all calls
made so far and the call's arguments.  The result of releasebuffer_handle is
discarded by the shim and so is not part of the oracle. -/
structure Driver where
  importbuffer_virtualaddr : List Event → Int → Int → Int
  imcheck : List Event → rga_buffer_t → rga_buffer_t → im_rect → im_rect → InterMode → Int
  imresize : List Event → rga_buffer_t → rga_buffer_t → Int → Int → InterMode → Int → Int

/-! ## Machine arithmetic -/

/-- Reduction of an integer to the 32-bit signed range (two's complement). -/
def wrapInt32 (x : Int) : Int := (x + 2147483648) % 4294967296 - 2147483648

/-- The C product of two int values. -/
def int_mul (a b : Int) : Int := wrapInt32 (a * b)

/-! ## Module state -/

/-- The file-level statics of rga_resize.cpp. -/
structure Statics where
  inited : Bool
  hsrc : Int
  hdst : Int
  sbuf : rga_buffer_t
  dbuf : rga_buffer_t
deriving DecidableEq

/-- The statics together with the trace of driver calls made so far. -/
structure World where
  statics : Statics
  trace : List Event
deriving DecidableEq

/-- Zero-initialised statics, flag clear, and no driver call made yet. -/
def World.init : World :=
  ⟨⟨false, 0, 0, ⟨0, 0, 0, 0⟩, ⟨0, 0, 0, 0⟩⟩, []⟩

/-- The eight arguments shared by resize_rga and resize_rga_init. -/
structure Args where
  src_va : Int
  src_w : Int
  src_h : Int
  src_fmt : Int
  dst_va : Int
  dst_w : Int
  dst_h : Int
  dst_fmt : Int
deriving DecidableEq

/-! ## The four entry points -/

/-- The one-shot resize, rga_resize.cpp lines 18-62.  Its hsrc, hdst, sbuf and
dbuf are locals that shadow the statics, so the statics are never written. -/
def resize_rga (drv : Driver) (a : Args) (w : World) : Int × World :=
  let src_size := int_mul (int_mul a.src_w a.src_h) 4
  let dst_size := int_mul (int_mul a.dst_w a.dst_h) 4
  let hsrc := drv.importbuffer_virtualaddr w.trace a.src_va src_size
  let t1 := w.trace ++ [Event.importbuffer_virtualaddr a.src_va src_size hsrc]
  let hdst := drv.importbuffer_virtualaddr t1 a.dst_va dst_size
  let t2 := t1 ++ [Event.importbuffer_virtualaddr a.dst_va dst_size hdst]
  if hsrc = 0 ∨ hdst = 0 then
    (-1, { w with trace := t2 })
  else
    let sbuf := wrapbuffer_handle hsrc a.src_w a.src_h a.src_fmt
    let t3 := t2 ++ [Event.wrapbuffer_handle hsrc a.src_w a.src_h a.src_fmt]
    let dbuf := wrapbuffer_handle hdst a.dst_w a.dst_h a.dst_fmt
    let t4 := t3 ++ [Event.wrapbuffer_handle hdst a.dst_w a.dst_h a.dst_fmt]
    let src_rect : im_rect := ⟨0, 0, a.src_w, a.src_h⟩
    let dst_rect : im_rect := ⟨0, 0, a.dst_w, a.dst_h⟩
    let chk := drv.imcheck t4 sbuf dbuf src_rect dst_rect InterMode.INTER_LINEAR
    let t5 := t4 ++ [Event.imcheck sbuf dbuf src_rect dst_rect InterMode.INTER_LINEAR chk]
    if chk ≠ IM_STATUS_NOERROR then
      (chk, { w with trace := t5 ++ [Event.releasebuffer_handle hsrc,
                                      Event.releasebuffer_handle hdst] })
    else
      let st := drv.imresize t5 sbuf dbuf 0 0 InterMode.INTER_LINEAR 1
      let t6 := t5 ++ [Event.imresize sbuf dbuf 0 0 InterMode.INTER_LINEAR 1 st]
      let t8 := t6 ++ [Event.releasebuffer_handle hsrc, Event.releasebuffer_handle hdst]
      if st = IM_STATUS_SUCCESS then
        (0, { w with trace := t8 })
      else
        (st, { w with trace := t8 })

/-- The cached variant's init, rga_resize.cpp lines 65-86.  Here hsrc, hdst,
sbuf and dbuf are the statics. -/
def resize_rga_init (drv : Driver) (a : Args) (w : World) : Int × World :=
  if w.statics.inited then (0, w)
  else
    let src_size := int_mul (int_mul a.src_w a.src_h) 4
    let dst_size := int_mul (int_mul a.dst_w a.dst_h) 4
    let hsrc := drv.importbuffer_virtualaddr w.trace a.src_va src_size
    let t1 := w.trace ++ [Event.importbuffer_virtualaddr a.src_va src_size hsrc]
    let hdst := drv.importbuffer_virtualaddr t1 a.dst_va dst_size
    let t2 := t1 ++ [Event.importbuffer_virtualaddr a.dst_va dst_size hdst]
    let s1 : Statics := { w.statics with hsrc := hsrc, hdst := hdst }
    if hsrc = 0 ∨ hdst = 0 then
      (-1, ⟨s1, t2⟩)
    else
      let sbuf := wrapbuffer_handle hsrc a.src_w a.src_h a.src_fmt
      let t3 := t2 ++ [Event.wrapbuffer_handle hsrc a.src_w a.src_h a.src_fmt]
      let dbuf := wrapbuffer_handle hdst a.dst_w a.dst_h a.dst_fmt
      let t4 := t3 ++ [Event.wrapbuffer_handle hdst a.dst_w a.dst_h a.dst_fmt]
      let s2 : Statics := { s1 with sbuf := sbuf, dbuf := dbuf }
      let sr : im_rect := ⟨0, 0, a.src_w, a.src_h⟩
      let dr : im_rect := ⟨0, 0, a.dst_w, a.dst_h⟩
      let chk := drv.imcheck t4 sbuf dbuf sr dr InterMode.INTER_LINEAR
      let t5 := t4 ++ [Event.imcheck sbuf dbuf sr dr InterMode.INTER_LINEAR chk]
      if chk ≠ IM_STATUS_NOERROR then
        (-1, ⟨s2, t5⟩)
      else
        (0, ⟨{ s2 with inited := true }, t5⟩)

/-- The cached variant's per-frame resize, rga_resize.cpp lines 88-92. -/
def resize_rga_frame (drv : Driver) (w : World) : Int × World :=
  let st := drv.imresize w.trace w.statics.sbuf w.statics.dbuf 0 0 InterMode.INTER_LINEAR 1
  let t1 := w.trace ++
    [Event.imresize w.statics.sbuf w.statics.dbuf 0 0 InterMode.INTER_LINEAR 1 st]
  (if st = IM_STATUS_SUCCESS then 0 else st, { w with trace := t1 })

/-- The cached variant's teardown, rga_resize.cpp lines 95-101. -/
def resize_rga_deinit (w : World) : World :=
  if ¬ w.statics.inited then w
  else
    ⟨{ w.statics with inited := false },
     w.trace ++ [Event.releasebuffer_handle w.statics.hsrc,
                 Event.releasebuffer_handle w.statics.hdst]⟩

/-! ## Sequences of calls -/

/-- One call of the shim's C surface. -/
inductive ApiCall where
  | resize_rga (a : Args)
  | resize_rga_init (a : Args)
  | resize_rga_frame
  | resize_rga_deinit
deriving DecidableEq

/-- The world after one call (the returned integer is dropped). -/
def step (drv : Driver) (w : World) : ApiCall → World
  | ApiCall.resize_rga a => (resize_rga drv a w).2
  | ApiCall.resize_rga_init a => (resize_rga_init drv a w).2
  | ApiCall.resize_rga_frame => (resize_rga_frame drv w).2
  | ApiCall.resize_rga_deinit => resize_rga_deinit w

/-- The world after a sequence of calls, made in list order. -/
def run (drv : Driver) (cs : List ApiCall) (w : World) : World :=
  cs.foldl (step drv) w

/-! ## What the driver answers during one import / wrap / check / resize sequence

Both resize_rga and resize_rga_init start with the same driver calls.  The
definitions below name the driver's answers to them, starting from history t. -/

/-- Byte size computed for the source buffer. -/
def srcSize (a : Args) : Int := int_mul (int_mul a.src_w a.src_h) 4

/-- Byte size computed for the destination buffer. -/
def dstSize (a : Args) : Int := int_mul (int_mul a.dst_w a.dst_h) 4

/-- Handle the driver returns for the import of the source buffer. -/
def srcHandle (drv : Driver) (a : Args) (t : List Event) : Int :=
  drv.importbuffer_virtualaddr t a.src_va (srcSize a)

/-- The event of the source import. -/
def srcImport (drv : Driver) (a : Args) (t : List Event) : Event :=
  Event.importbuffer_virtualaddr a.src_va (srcSize a) (srcHandle drv a t)

/-- Handle the driver returns for the import of the destination buffer. -/
def dstHandle (drv : Driver) (a : Args) (t : List Event) : Int :=
  drv.importbuffer_virtualaddr (t ++ [srcImport drv a t]) a.dst_va (dstSize a)

/-- The event of the destination import. -/
def dstImport (drv : Driver) (a : Args) (t : List Event) : Event :=
  Event.importbuffer_virtualaddr a.dst_va (dstSize a) (dstHandle drv a t)

/-- Wrapper of the imported source buffer. -/
def srcBuf (drv : Driver) (a : Args) (t : List Event) : rga_buffer_t :=
  wrapbuffer_handle (srcHandle drv a t) a.src_w a.src_h a.src_fmt

/-- Wrapper of the imported destination buffer. -/
def dstBuf (drv : Driver) (a : Args) (t : List Event) : rga_buffer_t :=
  wrapbuffer_handle (dstHandle drv a t) a.dst_w a.dst_h a.dst_fmt

/-- The two wrap events. -/
def wrapEvents (drv : Driver) (a : Args) (t : List Event) : List Event :=
  [Event.wrapbuffer_handle (srcHandle drv a t) a.src_w a.src_h a.src_fmt,
   Event.wrapbuffer_handle (dstHandle drv a t) a.dst_w a.dst_h a.dst_fmt]

/-- Full-frame source rectangle. -/
def srcRect (a : Args) : im_rect := ⟨0, 0, a.src_w, a.src_h⟩

/-- Full-frame destination rectangle. -/
def dstRect (a : Args) : im_rect := ⟨0, 0, a.dst_w, a.dst_h⟩

/-- Status the driver returns for the geometry check. -/
def checkStatus (drv : Driver) (a : Args) (t : List Event) : Int :=
  drv.imcheck (t ++ [srcImport drv a t, dstImport drv a t] ++ wrapEvents drv a t)
    (srcBuf drv a t) (dstBuf drv a t) (srcRect a) (dstRect a) InterMode.INTER_LINEAR

/-- The event of the geometry check. -/
def checkEvent (drv : Driver) (a : Args) (t : List Event) : Event :=
  Event.imcheck (srcBuf drv a t) (dstBuf drv a t) (srcRect a) (dstRect a)
    InterMode.INTER_LINEAR (checkStatus drv a t)

/-- Status the driver returns for the one-shot path's resize. -/
def resizeStatus (drv : Driver) (a : Args) (t : List Event) : Int :=
  drv.imresize
    (t ++ [srcImport drv a t, dstImport drv a t] ++ wrapEvents drv a t ++ [checkEvent drv a t])
    (srcBuf drv a t) (dstBuf drv a t) 0 0 InterMode.INTER_LINEAR 1

/-- The event of the one-shot path's resize. -/
def resizeEvent (drv : Driver) (a : Args) (t : List Event) : Event :=
  Event.imresize (srcBuf drv a t) (dstBuf drv a t) 0 0 InterMode.INTER_LINEAR 1
    (resizeStatus drv a t)

/-- Status the driver returns for the cached path's resize in world w. -/
def frameStatus (drv : Driver) (w : World) : Int :=
  drv.imresize w.trace w.statics.sbuf w.statics.dbuf 0 0 InterMode.INTER_LINEAR 1

/-! ## Reading a trace -/

/-- The non-null handles returned by the imports of a trace, in order. -/
def importedHandles : List Event → List Int
  | [] => []
  | Event.importbuffer_virtualaddr _ _ ret :: es =>
      if ret = 0 then importedHandles es else ret :: importedHandles es
  | _ :: es => importedHandles es

/-- The handles passed to releasebuffer_handle in a trace, in order. -/
def releasedHandles : List Event → List Int
  | [] => []
  | Event.releasebuffer_handle h :: es => h :: releasedHandles es
  | _ :: es => releasedHandles es

/-- Whether an event is a wrapbuffer_handle call. -/
def Event.isWrap : Event → Bool
  | Event.wrapbuffer_handle _ _ _ _ => true
  | _ => false

/-- Whether an event is an imcheck call. -/
def Event.isCheck : Event → Bool
  | Event.imcheck _ _ _ _ _ _ => true
  | _ => false

/-- Whether an event is an imresize call. -/
def Event.isResize : Event → Bool
  | Event.imresize _ _ _ _ _ _ _ => true
  | _ => false

/-- Effect of one event on the list of handles currently registered with the
driver: a successful import registers its handle, a release unregisters it. -/
def regStep (reg : List Int) : Event → List Int
  | Event.importbuffer_virtualaddr _ _ ret => if ret = 0 then reg else ret :: reg
  | Event.releasebuffer_handle h => reg.erase h
  | _ => reg

/-- The handles registered (imported and not yet released) after a trace. -/
def registered (t : List Event) : List Int := t.foldl regStep []

/-- A driver that hands out fresh handles: whatever the history, an import
returns null or a handle that is not registered at that moment. -/
def HandsOutFreshHandles (drv : Driver) : Prop :=
  ∀ (t : List Event) (va size : Int),
    drv.importbuffer_virtualaddr t va size = 0 ∨
    drv.importbuffer_virtualaddr t va size ∉ registered t

/-! ## Predicates on runs -/

/-- The events a call added: what follows the caller's trace. -/
def newEvents (before after : World) : List Event :=
  after.trace.drop before.trace.length

/-- The flag of the world reached by cs was set by one resize_rga_init call of
cs: before that call the flag was clear, the call set it, the cached handles
are the ones the call's two imports returned, and the flag has stayed set
after every call made since. -/
def SetByInit (drv : Driver) (cs : List ApiCall) : Prop :=
  ∃ (cs1 : List ApiCall) (a : Args) (cs2 : List ApiCall),
    cs = cs1 ++ ApiCall.resize_rga_init a :: cs2 ∧
    (run drv cs1 World.init).statics.inited = false ∧
    (resize_rga_init drv a (run drv cs1 World.init)).2.statics.inited = true ∧
    (run drv cs World.init).statics.hsrc = srcHandle drv a (run drv cs1 World.init).trace ∧
    (run drv cs World.init).statics.hdst = dstHandle drv a (run drv cs1 World.init).trace ∧
    ∀ p : List ApiCall, p <+: cs2 →
      (run drv (cs1 ++ ApiCall.resize_rga_init a :: p) World.init).statics.inited = true

/-- The invariant of the worlds reached from the initial one. -/
def CachedInv (drv : Driver) (cs : List ApiCall) : Prop :=
  (registered (run drv cs World.init).trace).Nodup ∧
  ((run drv cs World.init).statics.inited = true →
    (run drv cs World.init).statics.hsrc ≠ 0 ∧
    (run drv cs World.init).statics.hdst ≠ 0 ∧
    (run drv cs World.init).statics.hsrc ≠ (run drv cs World.init).statics.hdst ∧
    (run drv cs World.init).statics.hsrc ∈ registered (run drv cs World.init).trace ∧
    (run drv cs World.init).statics.hdst ∈ registered (run drv cs World.init).trace ∧
    SetByInit drv cs)

/-! ## Concrete drivers and inputs -/

/-- A driver whose answers are fixed: the first import of a history without
imports returns h1, every later import returns h2, the check returns chk and
the resize returns st. -/
def scriptedDriver (h1 h2 chk st : Int) : Driver where
  importbuffer_virtualaddr := fun t _ _ =>
    if t.all (fun e => match e with
      | Event.importbuffer_virtualaddr _ _ _ => false
      | _ => true) then h1 else h2
  imcheck := fun _ _ _ _ _ _ => chk
  imresize := fun _ _ _ _ _ _ _ => st

/-- A driver that numbers its handles: an import returns one more than the
sum of the absolute values of the registered handles; the check and the
resize return the given statuses. -/
def countingDriver (chk st : Int) : Driver where
  importbuffer_virtualaddr := fun t _ _ => (((registered t).map Int.natAbs).sum : Nat) + 1
  imcheck := fun _ _ _ _ _ _ => chk
  imresize := fun _ _ _ _ _ _ _ => st

/-- A 640x480 source and a 320x240 destination, format tag 0x2d on both. -/
def sampleArgs : Args := ⟨4096, 640, 480, 45, 8192, 320, 240, 45⟩

/-! ## Auxiliary facts -/

theorem resize_rga_cases (drv : Driver) (a : Args) (w : World) :
    resize_rga drv a w =
      if srcHandle drv a w.trace = 0 ∨ dstHandle drv a w.trace = 0 then
        (-1, { w with trace := w.trace ++ [srcImport drv a w.trace, dstImport drv a w.trace] })
      else if checkStatus drv a w.trace ≠ IM_STATUS_NOERROR then
        (checkStatus drv a w.trace,
          { w with trace := w.trace ++
              [srcImport drv a w.trace, dstImport drv a w.trace,
               Event.wrapbuffer_handle (srcHandle drv a w.trace) a.src_w a.src_h a.src_fmt,
               Event.wrapbuffer_handle (dstHandle drv a w.trace) a.dst_w a.dst_h a.dst_fmt,
               checkEvent drv a w.trace,
               Event.releasebuffer_handle (srcHandle drv a w.trace),
               Event.releasebuffer_handle (dstHandle drv a w.trace)] })
      else
        (if resizeStatus drv a w.trace = IM_STATUS_SUCCESS then 0 else resizeStatus drv a w.trace,
          { w with trace := w.trace ++
              [srcImport drv a w.trace, dstImport drv a w.trace,
               Event.wrapbuffer_handle (srcHandle drv a w.trace) a.src_w a.src_h a.src_fmt,
               Event.wrapbuffer_handle (dstHandle drv a w.trace) a.dst_w a.dst_h a.dst_fmt,
               checkEvent drv a w.trace, resizeEvent drv a w.trace,
               Event.releasebuffer_handle (srcHandle drv a w.trace),
               Event.releasebuffer_handle (dstHandle drv a w.trace)] }) := by
  simp only [resize_rga, srcHandle, dstHandle, srcImport, dstImport, checkStatus, checkEvent,
    resizeStatus, resizeEvent, wrapEvents, srcBuf, dstBuf, srcRect, dstRect, srcSize, dstSize,
    List.append_assoc, List.cons_append, List.nil_append]
  split_ifs <;> rfl

theorem registered_append (t es : List Event) :
    registered (t ++ es) = es.foldl regStep (registered t) := by
  simp [registered, List.foldl_append]

theorem newEvents_append (w w' : World) (es : List Event) (h : w'.trace = w.trace ++ es) :
    newEvents w w' = es := by
  simp [newEvents, h]

/-- Importing two non-null handles and releasing both leaves the registered
list as it was, whether or not the two handles are equal. -/
theorem erase_pair (reg : List Int) (h1 h2 : Int) :
    ((h2 :: h1 :: reg).erase h1).erase h2 = reg := by
  by_cases h : h2 = h1
  · subst h
    simp
  · have h' : (h2 == h1) = false := by simpa using h
    simp [List.erase_cons, h']

theorem wrapInt32_of_range (x : Int) (lo : -2147483648 ≤ x) (hi : x < 2147483648) :
    wrapInt32 x = x := by
  unfold wrapInt32
  omega

theorem size_of_range (w h : Int) (lo : -2147483648 ≤ w * h * 4)
    (hi : w * h * 4 < 2147483648) : int_mul (int_mul w h) 4 = w * h * 4 := by
  unfold int_mul wrapInt32
  generalize w * h = p at *
  omega

/-! ## The one-shot path -/

/-- C1: success path of resize_rga.  When the driver returns a non-null handle
for both imports, the check returns IM_STATUS_NOERROR and the resize returns
IM_STATUS_SUCCESS, resize_rga returns 0, leaves the statics alone and makes
exactly the calls import(src), import(dst), wrap, wrap, imcheck, imresize,
release(src handle), release(dst handle) in this order; leaving the two
wrapper constructions aside the calls are import, import, imcheck, imresize,
release, release; the handles released are the two imported ones, once each,
and the list of registered handles is the same as before the call. -/
theorem resize_rga_success_path (drv : Driver) (a : Args) (w : World)
    (hs : srcHandle drv a w.trace ≠ 0) (hd : dstHandle drv a w.trace ≠ 0)
    (hc : checkStatus drv a w.trace = IM_STATUS_NOERROR)
    (hr : resizeStatus drv a w.trace = IM_STATUS_SUCCESS) :
    (resize_rga drv a w).1 = 0 ∧
    (resize_rga drv a w).2.statics = w.statics ∧
    (resize_rga drv a w).2.trace = w.trace ++
      [Event.importbuffer_virtualaddr a.src_va (srcSize a) (srcHandle drv a w.trace),
       Event.importbuffer_virtualaddr a.dst_va (dstSize a) (dstHandle drv a w.trace),
       Event.wrapbuffer_handle (srcHandle drv a w.trace) a.src_w a.src_h a.src_fmt,
       Event.wrapbuffer_handle (dstHandle drv a w.trace) a.dst_w a.dst_h a.dst_fmt,
       Event.imcheck (srcBuf drv a w.trace) (dstBuf drv a w.trace) (srcRect a) (dstRect a)
         InterMode.INTER_LINEAR IM_STATUS_NOERROR,
       Event.imresize (srcBuf drv a w.trace) (dstBuf drv a w.trace) 0 0
         InterMode.INTER_LINEAR 1 IM_STATUS_SUCCESS,
       Event.releasebuffer_handle (srcHandle drv a w.trace),
       Event.releasebuffer_handle (dstHandle drv a w.trace)] ∧
    (newEvents w (resize_rga drv a w).2).filter (fun e => !e.isWrap) =
      [Event.importbuffer_virtualaddr a.src_va (srcSize a) (srcHandle drv a w.trace),
       Event.importbuffer_virtualaddr a.dst_va (dstSize a) (dstHandle drv a w.trace),
       Event.imcheck (srcBuf drv a w.trace) (dstBuf drv a w.trace) (srcRect a) (dstRect a)
         InterMode.INTER_LINEAR IM_STATUS_NOERROR,
       Event.imresize (srcBuf drv a w.trace) (dstBuf drv a w.trace) 0 0
         InterMode.INTER_LINEAR 1 IM_STATUS_SUCCESS,
       Event.releasebuffer_handle (srcHandle drv a w.trace),
       Event.releasebuffer_handle (dstHandle drv a w.trace)] ∧
    importedHandles (newEvents w (resize_rga drv a w).2) =
      [srcHandle drv a w.trace, dstHandle drv a w.trace] ∧
    releasedHandles (newEvents w (resize_rga drv a w).2) =
      [srcHandle drv a w.trace, dstHandle drv a w.trace] ∧
    registered (resize_rga drv a w).2.trace = registered w.trace := by
  have htr : (resize_rga drv a w).2.trace = w.trace ++
      [Event.importbuffer_virtualaddr a.src_va (srcSize a) (srcHandle drv a w.trace),
       Event.importbuffer_virtualaddr a.dst_va (dstSize a) (dstHandle drv a w.trace),
       Event.wrapbuffer_handle (srcHandle drv a w.trace) a.src_w a.src_h a.src_fmt,
       Event.wrapbuffer_handle (dstHandle drv a w.trace) a.dst_w a.dst_h a.dst_fmt,
       Event.imcheck (srcBuf drv a w.trace) (dstBuf drv a w.trace) (srcRect a) (dstRect a)
         InterMode.INTER_LINEAR IM_STATUS_NOERROR,
       Event.imresize (srcBuf drv a w.trace) (dstBuf drv a w.trace) 0 0
         InterMode.INTER_LINEAR 1 IM_STATUS_SUCCESS,
       Event.releasebuffer_handle (srcHandle drv a w.trace),
       Event.releasebuffer_handle (dstHandle drv a w.trace)] := by
    rw [resize_rga_cases]
    simp [hs, hd, hc, hr, srcImport, dstImport, checkEvent, resizeEvent]
  refine ⟨?_, ?_, htr, ?_, ?_, ?_, ?_⟩
  · rw [resize_rga_cases]
    simp [hs, hd, hc, hr]
  · rw [resize_rga_cases]
    simp [hs, hd, hc, hr]
  · rw [newEvents_append _ _ _ htr]
    simp [Event.isWrap]
  · rw [newEvents_append _ _ _ htr]
    simp [importedHandles, hs, hd]
  · rw [newEvents_append _ _ _ htr]
    simp [releasedHandles]
  · rw [htr, registered_append]
    simp only [List.foldl_cons, List.foldl_nil, regStep, hs, hd, if_false]
    exact erase_pair _ _ _

/-- Witness of C1: a driver that returns the handles 7 and 9, passes the check
and succeeds in the resize, on a 640x480 to 320x240 request. -/
theorem resize_rga_success_path_witness :
    (resize_rga (scriptedDriver 7 9 IM_STATUS_NOERROR IM_STATUS_SUCCESS) sampleArgs World.init).1 = 0 ∧
    releasedHandles (newEvents World.init
      (resize_rga (scriptedDriver 7 9 IM_STATUS_NOERROR IM_STATUS_SUCCESS) sampleArgs World.init).2)
      = [7, 9] :=
  have h := resize_rga_success_path (scriptedDriver 7 9 IM_STATUS_NOERROR IM_STATUS_SUCCESS)
    sampleArgs World.init (by decide) (by decide) (by decide) (by decide)
  ⟨h.1, h.2.2.2.2.2.1⟩

/-- C2 (the code at the failing input): the driver imports both buffers
(handles 7 and 9), the check passes with IM_STATUS_NOERROR and the resize
fails with IM_STATUS_FAILED, a status other than IM_STATUS_SUCCESS; resize_rga
returns 0, the value it returns on success. -/
theorem resize_rga_returns_zero_on_failed_resize :
    srcHandle (scriptedDriver 7 9 IM_STATUS_NOERROR IM_STATUS_FAILED) sampleArgs [] ≠ 0 ∧
    dstHandle (scriptedDriver 7 9 IM_STATUS_NOERROR IM_STATUS_FAILED) sampleArgs [] ≠ 0 ∧
    checkStatus (scriptedDriver 7 9 IM_STATUS_NOERROR IM_STATUS_FAILED) sampleArgs []
      = IM_STATUS_NOERROR ∧
    resizeStatus (scriptedDriver 7 9 IM_STATUS_NOERROR IM_STATUS_FAILED) sampleArgs []
      = IM_STATUS_FAILED ∧
    IM_STATUS_FAILED ≠ IM_STATUS_SUCCESS ∧
    (resize_rga (scriptedDriver 7 9 IM_STATUS_NOERROR IM_STATUS_FAILED) sampleArgs World.init).1
      = 0 := by
  decide

/-- C3 (the code at the failing input): the import of the source returns the
non-null handle 7 and the import of the destination returns null; resize_rga
returns -1 after the two imports, releases nothing, and handle 7 is still
registered when it returns. -/
theorem resize_rga_leaks_src_handle :
    (resize_rga (scriptedDriver 7 0 IM_STATUS_NOERROR IM_STATUS_SUCCESS) sampleArgs World.init).1
      = -1 ∧
    importedHandles (resize_rga (scriptedDriver 7 0 IM_STATUS_NOERROR IM_STATUS_SUCCESS)
      sampleArgs World.init).2.trace = [7] ∧
    releasedHandles (resize_rga (scriptedDriver 7 0 IM_STATUS_NOERROR IM_STATUS_SUCCESS)
      sampleArgs World.init).2.trace = [] ∧
    registered (resize_rga (scriptedDriver 7 0 IM_STATUS_NOERROR IM_STATUS_SUCCESS)
      sampleArgs World.init).2.trace = [7] := by
  decide

/-- C4: check-failure path of resize_rga.  When both imports return a
non-null handle and the check returns a status other than
IM_STATUS_NOERROR, resize_rga returns that status, leaves the statics alone
and makes exactly the calls import(src), import(dst), wrap, wrap, imcheck,
release(src handle), release(dst handle): no imresize call, each imported
handle released once, and the registered handles are as before the call. -/
theorem resize_rga_check_failure_path (drv : Driver) (a : Args) (w : World)
    (hs : srcHandle drv a w.trace ≠ 0) (hd : dstHandle drv a w.trace ≠ 0)
    (hc : checkStatus drv a w.trace ≠ IM_STATUS_NOERROR) :
    (resize_rga drv a w).1 = checkStatus drv a w.trace ∧
    (resize_rga drv a w).2.statics = w.statics ∧
    (resize_rga drv a w).2.trace = w.trace ++
      [Event.importbuffer_virtualaddr a.src_va (srcSize a) (srcHandle drv a w.trace),
       Event.importbuffer_virtualaddr a.dst_va (dstSize a) (dstHandle drv a w.trace),
       Event.wrapbuffer_handle (srcHandle drv a w.trace) a.src_w a.src_h a.src_fmt,
       Event.wrapbuffer_handle (dstHandle drv a w.trace) a.dst_w a.dst_h a.dst_fmt,
       Event.imcheck (srcBuf drv a w.trace) (dstBuf drv a w.trace) (srcRect a) (dstRect a)
         InterMode.INTER_LINEAR (checkStatus drv a w.trace),
       Event.releasebuffer_handle (srcHandle drv a w.trace),
       Event.releasebuffer_handle (dstHandle drv a w.trace)] ∧
    (newEvents w (resize_rga drv a w).2).any Event.isResize = false ∧
    importedHandles (newEvents w (resize_rga drv a w).2) =
      [srcHandle drv a w.trace, dstHandle drv a w.trace] ∧
    releasedHandles (newEvents w (resize_rga drv a w).2) =
      [srcHandle drv a w.trace, dstHandle drv a w.trace] ∧
    registered (resize_rga drv a w).2.trace = registered w.trace := by
  have htr : (resize_rga drv a w).2.trace = w.trace ++
      [Event.importbuffer_virtualaddr a.src_va (srcSize a) (srcHandle drv a w.trace),
       Event.importbuffer_virtualaddr a.dst_va (dstSize a) (dstHandle drv a w.trace),
       Event.wrapbuffer_handle (srcHandle drv a w.trace) a.src_w a.src_h a.src_fmt,
       Event.wrapbuffer_handle (dstHandle drv a w.trace) a.dst_w a.dst_h a.dst_fmt,
       Event.imcheck (srcBuf drv a w.trace) (dstBuf drv a w.trace) (srcRect a) (dstRect a)
         InterMode.INTER_LINEAR (checkStatus drv a w.trace),
       Event.releasebuffer_handle (srcHandle drv a w.trace),
       Event.releasebuffer_handle (dstHandle drv a w.trace)] := by
    rw [resize_rga_cases]
    simp [hs, hd, hc, srcImport, dstImport, checkEvent]
  refine ⟨?_, ?_, htr, ?_, ?_, ?_, ?_⟩
  · rw [resize_rga_cases]
    simp [hs, hd, hc]
  · rw [resize_rga_cases]
    simp [hs, hd, hc]
  · rw [newEvents_append _ _ _ htr]
    simp [Event.isResize]
  · rw [newEvents_append _ _ _ htr]
    simp [importedHandles, hs, hd]
  · rw [newEvents_append _ _ _ htr]
    simp [releasedHandles]
  · rw [htr, registered_append]
    simp only [List.foldl_cons, List.foldl_nil, regStep, hs, hd, if_false]
    exact erase_pair _ _ _

/-- Witness of C4: handles 7 and 9, and a check that answers -1. -/
theorem resize_rga_check_failure_path_witness :
    (resize_rga (scriptedDriver 7 9 (-1) IM_STATUS_SUCCESS) sampleArgs World.init).1 = -1 ∧
    releasedHandles (newEvents World.init
      (resize_rga (scriptedDriver 7 9 (-1) IM_STATUS_SUCCESS) sampleArgs World.init).2)
      = [7, 9] :=
  have h := resize_rga_check_failure_path (scriptedDriver 7 9 (-1) IM_STATUS_SUCCESS)
    sampleArgs World.init (by decide) (by decide) (by decide)
  ⟨h.1, h.2.2.2.2.2.1⟩

/-- C5: import-failure path of resize_rga.  When at least one of the two
imports returns the null handle, resize_rga returns -1 and its only driver
calls are the two imports (no wrap, imcheck, imresize or release), the statics
being left alone.  The sizes passed to the imports are the C int products
src_w*src_h*4 and dst_w*dst_h*4, which are the exact products whenever these
fit the int range, and they do not depend on src_fmt or dst_fmt. -/
theorem resize_rga_import_failure_path (drv : Driver) (a : Args) (w : World)
    (hnull : srcHandle drv a w.trace = 0 ∨ dstHandle drv a w.trace = 0) :
    (resize_rga drv a w).1 = -1 ∧
    (resize_rga drv a w).2.statics = w.statics ∧
    (resize_rga drv a w).2.trace = w.trace ++
      [Event.importbuffer_virtualaddr a.src_va (int_mul (int_mul a.src_w a.src_h) 4)
         (srcHandle drv a w.trace),
       Event.importbuffer_virtualaddr a.dst_va (int_mul (int_mul a.dst_w a.dst_h) 4)
         (dstHandle drv a w.trace)] ∧
    (newEvents w (resize_rga drv a w).2).any Event.isCheck = false ∧
    (newEvents w (resize_rga drv a w).2).any Event.isResize = false ∧
    (-2147483648 ≤ a.src_w * a.src_h * 4 → a.src_w * a.src_h * 4 < 2147483648 →
      int_mul (int_mul a.src_w a.src_h) 4 = a.src_w * a.src_h * 4) ∧
    (-2147483648 ≤ a.dst_w * a.dst_h * 4 → a.dst_w * a.dst_h * 4 < 2147483648 →
      int_mul (int_mul a.dst_w a.dst_h) 4 = a.dst_w * a.dst_h * 4) ∧
    (∀ f g : Int,
      srcSize { a with src_fmt := f, dst_fmt := g } = srcSize a ∧
      dstSize { a with src_fmt := f, dst_fmt := g } = dstSize a ∧
      srcHandle drv { a with src_fmt := f, dst_fmt := g } w.trace = srcHandle drv a w.trace ∧
      dstHandle drv { a with src_fmt := f, dst_fmt := g } w.trace = dstHandle drv a w.trace) := by
  have htr : (resize_rga drv a w).2.trace = w.trace ++
      [Event.importbuffer_virtualaddr a.src_va (int_mul (int_mul a.src_w a.src_h) 4)
         (srcHandle drv a w.trace),
       Event.importbuffer_virtualaddr a.dst_va (int_mul (int_mul a.dst_w a.dst_h) 4)
         (dstHandle drv a w.trace)] := by
    rw [resize_rga_cases]
    simp [hnull, srcImport, dstImport, srcSize, dstSize]
  refine ⟨?_, ?_, htr, ?_, ?_, size_of_range _ _, size_of_range _ _, ?_⟩
  · rw [resize_rga_cases]
    simp [hnull]
  · rw [resize_rga_cases]
    simp [hnull]
  · rw [newEvents_append _ _ _ htr]
    simp [Event.isCheck]
  · rw [newEvents_append _ _ _ htr]
    simp [Event.isResize]
  · intro f g
    simp [srcSize, dstSize, srcHandle, dstHandle, srcImport]

/-- Witness of C5: the source import returns handle 7, the destination import
returns null; the sizes passed are 640*480*4 and 320*240*4. -/
theorem resize_rga_import_failure_path_witness :
    (resize_rga (scriptedDriver 7 0 IM_STATUS_NOERROR IM_STATUS_SUCCESS) sampleArgs World.init).1
      = -1 ∧
    (resize_rga (scriptedDriver 7 0 IM_STATUS_NOERROR IM_STATUS_SUCCESS) sampleArgs
      World.init).2.trace =
      [Event.importbuffer_virtualaddr 4096 1228800 7,
       Event.importbuffer_virtualaddr 8192 307200 0] :=
  have h := resize_rga_import_failure_path (scriptedDriver 7 0 IM_STATUS_NOERROR IM_STATUS_SUCCESS)
    sampleArgs World.init (by decide)
  ⟨h.1, h.2.2.1⟩

/-! ## The cached path -/

theorem resize_rga_init_cases (drv : Driver) (a : Args) (w : World) :
    resize_rga_init drv a w =
      if w.statics.inited = true then (0, w)
      else if srcHandle drv a w.trace = 0 ∨ dstHandle drv a w.trace = 0 then
        (-1, ⟨{ w.statics with hsrc := srcHandle drv a w.trace, hdst := dstHandle drv a w.trace },
              w.trace ++ [srcImport drv a w.trace, dstImport drv a w.trace]⟩)
      else if checkStatus drv a w.trace ≠ IM_STATUS_NOERROR then
        (-1, ⟨{ w.statics with hsrc := srcHandle drv a w.trace, hdst := dstHandle drv a w.trace,
                               sbuf := srcBuf drv a w.trace, dbuf := dstBuf drv a w.trace },
              w.trace ++
                [srcImport drv a w.trace, dstImport drv a w.trace,
                 Event.wrapbuffer_handle (srcHandle drv a w.trace) a.src_w a.src_h a.src_fmt,
                 Event.wrapbuffer_handle (dstHandle drv a w.trace) a.dst_w a.dst_h a.dst_fmt,
                 checkEvent drv a w.trace]⟩)
      else
        (0, ⟨{ inited := true, hsrc := srcHandle drv a w.trace, hdst := dstHandle drv a w.trace,
               sbuf := srcBuf drv a w.trace, dbuf := dstBuf drv a w.trace },
              w.trace ++
                [srcImport drv a w.trace, dstImport drv a w.trace,
                 Event.wrapbuffer_handle (srcHandle drv a w.trace) a.src_w a.src_h a.src_fmt,
                 Event.wrapbuffer_handle (dstHandle drv a w.trace) a.dst_w a.dst_h a.dst_fmt,
                 checkEvent drv a w.trace]⟩) := by
  simp only [resize_rga_init, srcHandle, dstHandle, srcImport, dstImport, checkStatus, checkEvent,
    wrapEvents, srcBuf, dstBuf, srcRect, dstRect, srcSize, dstSize,
    List.append_assoc, List.cons_append, List.nil_append]

/-- C6: resize_rga_init is idempotent once initialized.  In any world whose
flag is set, a call with any arguments returns 0 and leaves the world as it
was: the trace is the same (no driver call of any kind is made) and the flag,
both cached handles and both cached wrappers are unchanged. -/
theorem resize_rga_init_idempotent (drv : Driver) (a : Args) (w : World)
    (hinit : w.statics.inited = true) :
    (resize_rga_init drv a w).1 = 0 ∧
    (resize_rga_init drv a w).2.trace = w.trace ∧
    newEvents w (resize_rga_init drv a w).2 = [] ∧
    (resize_rga_init drv a w).2.statics.inited = true ∧
    (resize_rga_init drv a w).2.statics.hsrc = w.statics.hsrc ∧
    (resize_rga_init drv a w).2.statics.hdst = w.statics.hdst ∧
    (resize_rga_init drv a w).2.statics.sbuf = w.statics.sbuf ∧
    (resize_rga_init drv a w).2.statics.dbuf = w.statics.dbuf := by
  have h : resize_rga_init drv a w = (0, w) := by
    simp [resize_rga_init, hinit]
  rw [h]
  simp [newEvents, hinit]

/-- Witness of C6: a first init imports handles 7 and 9 and sets the flag; a
second init with other buffers and another geometry returns 0 and changes
nothing. -/
theorem resize_rga_init_idempotent_witness :
    (resize_rga_init (scriptedDriver 7 9 IM_STATUS_NOERROR IM_STATUS_SUCCESS)
      ⟨12288, 1920, 1080, 45, 16384, 640, 640, 45⟩
      (resize_rga_init (scriptedDriver 7 9 IM_STATUS_NOERROR IM_STATUS_SUCCESS)
        sampleArgs World.init).2).1 = 0 ∧
    (resize_rga_init (scriptedDriver 7 9 IM_STATUS_NOERROR IM_STATUS_SUCCESS)
      ⟨12288, 1920, 1080, 45, 16384, 640, 640, 45⟩
      (resize_rga_init (scriptedDriver 7 9 IM_STATUS_NOERROR IM_STATUS_SUCCESS)
        sampleArgs World.init).2).2.trace =
    (resize_rga_init (scriptedDriver 7 9 IM_STATUS_NOERROR IM_STATUS_SUCCESS)
        sampleArgs World.init).2.trace :=
  have h := resize_rga_init_idempotent (scriptedDriver 7 9 IM_STATUS_NOERROR IM_STATUS_SUCCESS)
    ⟨12288, 1920, 1080, 45, 16384, 640, 640, 45⟩
    (resize_rga_init (scriptedDriver 7 9 IM_STATUS_NOERROR IM_STATUS_SUCCESS)
      sampleArgs World.init).2 (by decide)
  ⟨h.1, h.2.1⟩

/-- C7: resize_rga_deinit.  In every world (hence in every world reached by
any sequence of calls) whose flag is clear, resize_rga_deinit leaves the world
as it was: no releasebuffer_handle call and the statics unchanged.  When the
flag is set it makes exactly two calls, release of the cached source handle
then release of the cached destination handle, clears the flag and leaves the
rest of the statics alone; a second deinit right after changes nothing. -/
theorem resize_rga_deinit_effect (w : World) :
    (w.statics.inited = false →
      resize_rga_deinit w = w ∧ releasedHandles (newEvents w (resize_rga_deinit w)) = []) ∧
    (w.statics.inited = true →
      (resize_rga_deinit w).trace = w.trace ++
        [Event.releasebuffer_handle w.statics.hsrc, Event.releasebuffer_handle w.statics.hdst] ∧
      (resize_rga_deinit w).statics = { w.statics with inited := false } ∧
      resize_rga_deinit (resize_rga_deinit w) = resize_rga_deinit w ∧
      newEvents (resize_rga_deinit w) (resize_rga_deinit (resize_rga_deinit w)) = []) := by
  constructor
  · intro h
    have h1 : resize_rga_deinit w = w := by simp [resize_rga_deinit, h]
    rw [h1]
    simp [newEvents, releasedHandles]
  · intro h
    have h1 : resize_rga_deinit w = ⟨{ w.statics with inited := false },
        w.trace ++ [Event.releasebuffer_handle w.statics.hsrc,
                    Event.releasebuffer_handle w.statics.hdst]⟩ := by
      simp [resize_rga_deinit, h]
    have h2 : resize_rga_deinit (resize_rga_deinit w) = resize_rga_deinit w := by
      rw [h1]
      simp [resize_rga_deinit]
    rw [h2]
    refine ⟨?_, ?_, rfl, ?_⟩
    · rw [h1]
    · rw [h1]
    · simp [newEvents]

/-- Witness of C7: after a successful init with handles 7 and 9 the deinit
releases 7 then 9; in the initial world, and after a failed init, it is the
identity. -/
theorem resize_rga_deinit_effect_witness :
    releasedHandles (resize_rga_deinit (resize_rga_init
      (scriptedDriver 7 9 IM_STATUS_NOERROR IM_STATUS_SUCCESS) sampleArgs World.init).2).trace
      = [7, 9] ∧
    resize_rga_deinit World.init = World.init ∧
    resize_rga_deinit (resize_rga_init
      (scriptedDriver 7 0 IM_STATUS_NOERROR IM_STATUS_SUCCESS) sampleArgs World.init).2 =
      (resize_rga_init
      (scriptedDriver 7 0 IM_STATUS_NOERROR IM_STATUS_SUCCESS) sampleArgs World.init).2 :=
  ⟨by
      rw [((resize_rga_deinit_effect (resize_rga_init
        (scriptedDriver 7 9 IM_STATUS_NOERROR IM_STATUS_SUCCESS) sampleArgs World.init).2).2
        (by decide)).1]
      decide,
   ((resize_rga_deinit_effect World.init).1 (by decide)).1,
   ((resize_rga_deinit_effect (resize_rga_init
      (scriptedDriver 7 0 IM_STATUS_NOERROR IM_STATUS_SUCCESS) sampleArgs World.init).2).1
      (by decide)).1⟩

/-- C8: a failed check in resize_rga_init.  Starting with the flag clear, when
both imports return a non-null handle and the check returns a status other
than IM_STATUS_NOERROR, resize_rga_init returns -1 after the calls import,
import, wrap, wrap, imcheck; it releases nothing, the flag stays clear, the
two fresh handles sit in the statics and are registered with the driver, and
a resize_rga_deinit that follows changes nothing, so it releases neither. -/
theorem resize_rga_init_check_failure (drv : Driver) (a : Args) (w : World)
    (hclear : w.statics.inited = false)
    (hs : srcHandle drv a w.trace ≠ 0) (hd : dstHandle drv a w.trace ≠ 0)
    (hc : checkStatus drv a w.trace ≠ IM_STATUS_NOERROR) :
    (resize_rga_init drv a w).1 = -1 ∧
    (resize_rga_init drv a w).2.trace = w.trace ++
      [Event.importbuffer_virtualaddr a.src_va (srcSize a) (srcHandle drv a w.trace),
       Event.importbuffer_virtualaddr a.dst_va (dstSize a) (dstHandle drv a w.trace),
       Event.wrapbuffer_handle (srcHandle drv a w.trace) a.src_w a.src_h a.src_fmt,
       Event.wrapbuffer_handle (dstHandle drv a w.trace) a.dst_w a.dst_h a.dst_fmt,
       Event.imcheck (srcBuf drv a w.trace) (dstBuf drv a w.trace) (srcRect a) (dstRect a)
         InterMode.INTER_LINEAR (checkStatus drv a w.trace)] ∧
    releasedHandles (newEvents w (resize_rga_init drv a w).2) = [] ∧
    (resize_rga_init drv a w).2.statics.inited = false ∧
    (resize_rga_init drv a w).2.statics.hsrc = srcHandle drv a w.trace ∧
    (resize_rga_init drv a w).2.statics.hdst = dstHandle drv a w.trace ∧
    registered (resize_rga_init drv a w).2.trace =
      dstHandle drv a w.trace :: srcHandle drv a w.trace :: registered w.trace ∧
    resize_rga_deinit (resize_rga_init drv a w).2 = (resize_rga_init drv a w).2 ∧
    registered (resize_rga_deinit (resize_rga_init drv a w).2).trace =
      dstHandle drv a w.trace :: srcHandle drv a w.trace :: registered w.trace := by
  have heq : resize_rga_init drv a w =
      (-1, ⟨{ w.statics with hsrc := srcHandle drv a w.trace, hdst := dstHandle drv a w.trace,
                             sbuf := srcBuf drv a w.trace, dbuf := dstBuf drv a w.trace },
            w.trace ++
              [srcImport drv a w.trace, dstImport drv a w.trace,
               Event.wrapbuffer_handle (srcHandle drv a w.trace) a.src_w a.src_h a.src_fmt,
               Event.wrapbuffer_handle (dstHandle drv a w.trace) a.dst_w a.dst_h a.dst_fmt,
               checkEvent drv a w.trace]⟩) := by
    rw [resize_rga_init_cases]
    simp [hclear, hs, hd, hc]
  have hreg : registered (resize_rga_init drv a w).2.trace =
      dstHandle drv a w.trace :: srcHandle drv a w.trace :: registered w.trace := by
    rw [heq, registered_append]
    simp [regStep, srcImport, dstImport, checkEvent, hs, hd]
  have hde : resize_rga_deinit (resize_rga_init drv a w).2 = (resize_rga_init drv a w).2 := by
    rw [heq]
    simp [resize_rga_deinit, hclear]
  refine ⟨?_, ?_, ?_, ?_, ?_, ?_, hreg, hde, ?_⟩
  · rw [heq]
  · rw [heq]
    simp [srcImport, dstImport, checkEvent]
  · rw [heq]
    simp [newEvents, releasedHandles, srcImport, dstImport, checkEvent]
  · rw [heq]
    simp [hclear]
  · rw [heq]
  · rw [heq]
  · rw [hde]
    exact hreg

/-- Witness of C8: handles 7 and 9, and a check that answers -1. -/
theorem resize_rga_init_check_failure_witness :
    (resize_rga_init (scriptedDriver 7 9 (-1) IM_STATUS_SUCCESS) sampleArgs World.init).1 = -1 ∧
    registered (resize_rga_deinit
      (resize_rga_init (scriptedDriver 7 9 (-1) IM_STATUS_SUCCESS) sampleArgs World.init).2).trace
      = [9, 7] :=
  have h := resize_rga_init_check_failure (scriptedDriver 7 9 (-1) IM_STATUS_SUCCESS)
    sampleArgs World.init (by decide) (by decide) (by decide) (by decide)
  ⟨h.1, h.2.2.2.2.2.2.2.2⟩

/-- C9: resize_rga_frame does not look at the flag.  In every world it makes
exactly one driver call, imresize on the cached source and destination
wrappers with INTER_LINEAR, leaves the statics unchanged, and returns 0 when
the driver's status is IM_STATUS_SUCCESS and the status's integer value
otherwise.  Whatever the flag is, the call made and the value returned are
the same, so no separate "not initialized" value is ever returned. -/
theorem resize_rga_frame_effect (drv : Driver) (w : World) :
    (resize_rga_frame drv w).2.trace = w.trace ++
      [Event.imresize w.statics.sbuf w.statics.dbuf 0 0 InterMode.INTER_LINEAR 1
        (frameStatus drv w)] ∧
    (resize_rga_frame drv w).2.statics = w.statics ∧
    (resize_rga_frame drv w).1 =
      (if frameStatus drv w = IM_STATUS_SUCCESS then 0 else frameStatus drv w) ∧
    (∀ b : Bool,
      (resize_rga_frame drv ⟨{ w.statics with inited := b }, w.trace⟩).1 =
        (resize_rga_frame drv w).1 ∧
      (resize_rga_frame drv ⟨{ w.statics with inited := b }, w.trace⟩).2.trace =
        (resize_rga_frame drv w).2.trace) := by
  simp [resize_rga_frame, frameStatus]

/-! ## Reachable worlds of the cached variant -/

theorem run_snoc (drv : Driver) (cs : List ApiCall) (c : ApiCall) (w : World) :
    run drv (cs ++ [c]) w = step drv (run drv cs w) c := by
  simp [run, List.foldl_append]

theorem registered_snoc (t : List Event) (e : Event) :
    registered (t ++ [e]) = regStep (registered t) e := by
  simp [registered, List.foldl_append]

theorem nodup_snoc_import (drv : Driver) (hfresh : HandsOutFreshHandles drv)
    (t : List Event) (va size : Int) (hn : (registered t).Nodup) :
    (registered (t ++ [Event.importbuffer_virtualaddr va size
      (drv.importbuffer_virtualaddr t va size)])).Nodup := by
  rw [registered_snoc]
  simp only [regStep]
  split_ifs with h0
  · exact hn
  · rcases hfresh t va size with h | h
    · exact absurd h h0
    · exact List.nodup_cons.mpr ⟨h, hn⟩

theorem nodup_snoc_release (t : List Event) (h : Int) (hn : (registered t).Nodup) :
    (registered (t ++ [Event.releasebuffer_handle h])).Nodup := by
  rw [registered_snoc]
  simp only [regStep]
  exact hn.erase h

theorem nodup_after_imports (drv : Driver) (hfresh : HandsOutFreshHandles drv) (a : Args)
    (t : List Event) (hn : (registered t).Nodup) :
    (registered (t ++ [srcImport drv a t, dstImport drv a t])).Nodup := by
  have h1 : (registered (t ++ [srcImport drv a t])).Nodup :=
    nodup_snoc_import drv hfresh t a.src_va (srcSize a) hn
  have h2 := nodup_snoc_import drv hfresh (t ++ [srcImport drv a t]) a.dst_va (dstSize a) h1
  simpa [dstImport, dstHandle] using h2

theorem handles_distinct (drv : Driver) (hfresh : HandsOutFreshHandles drv) (a : Args)
    (t : List Event) (hs : srcHandle drv a t ≠ 0) (hd : dstHandle drv a t ≠ 0) :
    srcHandle drv a t ≠ dstHandle drv a t ∧
    srcHandle drv a t ∉ registered t ∧ dstHandle drv a t ∉ registered t := by
  have h1 : srcHandle drv a t ∉ registered t := by
    rcases hfresh t a.src_va (srcSize a) with h | h
    · exact absurd h hs
    · exact h
  have h2 : dstHandle drv a t ∉ registered (t ++ [srcImport drv a t]) := by
    rcases hfresh (t ++ [srcImport drv a t]) a.dst_va (dstSize a) with h | h
    · exact absurd h hd
    · exact h
  rw [registered_snoc] at h2
  simp only [regStep, srcImport, hs, if_false, List.mem_cons, not_or] at h2
  exact ⟨fun h => h2.1 h.symm, h1, h2.2⟩

theorem mem_registered_after_imports (drv : Driver) (a : Args) (t : List Event) (x : Int)
    (hx : x ∈ registered t) :
    x ∈ registered (t ++ [srcImport drv a t, dstImport drv a t]) := by
  rw [registered_append]
  simp only [List.foldl_cons, List.foldl_nil, regStep, srcImport, dstImport]
  split_ifs <;> simp [hx]

theorem resize_rga_statics (drv : Driver) (a : Args) (w : World) :
    (resize_rga drv a w).2.statics = w.statics := by
  rw [resize_rga_cases]
  split_ifs <;> rfl

theorem resize_rga_registered (drv : Driver) (a : Args) (w : World) :
    (resize_rga drv a w).2.trace =
        w.trace ++ [srcImport drv a w.trace, dstImport drv a w.trace] ∨
    registered (resize_rga drv a w).2.trace = registered w.trace := by
  rw [resize_rga_cases]
  by_cases h0 : srcHandle drv a w.trace = 0 ∨ dstHandle drv a w.trace = 0
  · left
    simp [h0]
  · right
    have hs : srcHandle drv a w.trace ≠ 0 := fun h => h0 (Or.inl h)
    have hd : dstHandle drv a w.trace ≠ 0 := fun h => h0 (Or.inr h)
    by_cases hc : checkStatus drv a w.trace = IM_STATUS_NOERROR
    · simp only [hs, hd, hc, or_self, if_false, ne_eq, not_true_eq_false]
      rw [registered_append]
      simp only [List.foldl_cons, List.foldl_nil, regStep, srcImport, dstImport, checkEvent,
        resizeEvent, hs, hd, if_false]
      exact erase_pair _ _ _
    · simp only [hs, hd, hc, or_self, if_false, ne_eq, not_false_eq_true, if_true]
      rw [registered_append]
      simp only [List.foldl_cons, List.foldl_nil, regStep, srcImport, dstImport, checkEvent,
        hs, hd, if_false]
      exact erase_pair _ _ _

theorem resize_rga_nodup (drv : Driver) (hfresh : HandsOutFreshHandles drv) (a : Args)
    (w : World) (hn : (registered w.trace).Nodup) :
    (registered (resize_rga drv a w).2.trace).Nodup := by
  rcases resize_rga_registered drv a w with h | h
  · rw [h]
    exact nodup_after_imports drv hfresh a w.trace hn
  · rw [h]
    exact hn

theorem resize_rga_mem (drv : Driver) (a : Args) (w : World) (x : Int)
    (hx : x ∈ registered w.trace) : x ∈ registered (resize_rga drv a w).2.trace := by
  rcases resize_rga_registered drv a w with h | h
  · rw [h]
    exact mem_registered_after_imports drv a w.trace x hx
  · rw [h]
    exact hx

theorem resize_rga_frame_registered (drv : Driver) (w : World) :
    (resize_rga_frame drv w).2.statics = w.statics ∧
    registered (resize_rga_frame drv w).2.trace = registered w.trace := by
  simp [resize_rga_frame, registered_snoc, regStep]

theorem resize_rga_deinit_inited (w : World) :
    (resize_rga_deinit w).statics.inited = false := by
  cases h : w.statics.inited <;> simp [resize_rga_deinit, h]

theorem resize_rga_deinit_nodup (w : World) (hn : (registered w.trace).Nodup) :
    (registered (resize_rga_deinit w).trace).Nodup := by
  cases h : w.statics.inited
  · simpa [resize_rga_deinit, h] using hn
  · have h1 := nodup_snoc_release (w.trace ++ [Event.releasebuffer_handle w.statics.hsrc])
      w.statics.hdst (nodup_snoc_release w.trace w.statics.hsrc hn)
    simpa [resize_rga_deinit, h] using h1

/-- What a resize_rga_init call that sets the flag did. -/
theorem resize_rga_init_sets_flag (drv : Driver) (a : Args) (w : World)
    (hclear : w.statics.inited = false)
    (hset : (resize_rga_init drv a w).2.statics.inited = true) :
    srcHandle drv a w.trace ≠ 0 ∧ dstHandle drv a w.trace ≠ 0 ∧
    checkStatus drv a w.trace = IM_STATUS_NOERROR ∧
    (resize_rga_init drv a w).1 = 0 ∧
    (resize_rga_init drv a w).2.statics.hsrc = srcHandle drv a w.trace ∧
    (resize_rga_init drv a w).2.statics.hdst = dstHandle drv a w.trace ∧
    (resize_rga_init drv a w).2.trace = w.trace ++
      [srcImport drv a w.trace, dstImport drv a w.trace,
       Event.wrapbuffer_handle (srcHandle drv a w.trace) a.src_w a.src_h a.src_fmt,
       Event.wrapbuffer_handle (dstHandle drv a w.trace) a.dst_w a.dst_h a.dst_fmt,
       checkEvent drv a w.trace] ∧
    registered (resize_rga_init drv a w).2.trace =
      dstHandle drv a w.trace :: srcHandle drv a w.trace :: registered w.trace := by
  rw [resize_rga_init_cases] at hset ⊢
  by_cases h0 : srcHandle drv a w.trace = 0 ∨ dstHandle drv a w.trace = 0
  · simp [hclear, h0] at hset
  · have hs : srcHandle drv a w.trace ≠ 0 := fun h => h0 (Or.inl h)
    have hd : dstHandle drv a w.trace ≠ 0 := fun h => h0 (Or.inr h)
    by_cases hc : checkStatus drv a w.trace = IM_STATUS_NOERROR
    · refine ⟨hs, hd, hc, ?_⟩
      simp only [hclear, hs, hd, hc, or_self, if_false, ne_eq, not_true_eq_false,
        Bool.false_eq_true, true_and]
      rw [registered_append]
      simp [regStep, srcImport, dstImport, checkEvent, hs, hd]
    · simp [hclear, hs, hd, hc] at hset

theorem resize_rga_init_nodup (drv : Driver) (hfresh : HandsOutFreshHandles drv) (a : Args)
    (w : World) (hn : (registered w.trace).Nodup) :
    (registered (resize_rga_init drv a w).2.trace).Nodup := by
  rw [resize_rga_init_cases]
  have h2 := nodup_after_imports drv hfresh a w.trace hn
  rw [registered_append] at h2
  split_ifs
  · exact hn
  · rw [registered_append]
    exact h2
  · rw [registered_append]
    simpa [regStep, checkEvent] using h2
  · rw [registered_append]
    simpa [regStep, checkEvent] using h2

theorem setByInit_snoc (drv : Driver) (cs : List ApiCall) (c : ApiCall)
    (h : SetByInit drv cs)
    (hsrc : (run drv (cs ++ [c]) World.init).statics.hsrc = (run drv cs World.init).statics.hsrc)
    (hdst : (run drv (cs ++ [c]) World.init).statics.hdst = (run drv cs World.init).statics.hdst)
    (hin : (run drv (cs ++ [c]) World.init).statics.inited = true) :
    SetByInit drv (cs ++ [c]) := by
  obtain ⟨cs1, a, cs2, hcs, h1, h2, h3, h4, h5⟩ := h
  refine ⟨cs1, a, cs2 ++ [c], by simp [hcs], h1, h2, hsrc.trans h3, hdst.trans h4, ?_⟩
  intro p hp
  rcases List.prefix_concat_iff.mp hp with hp | hp
  · subst hp
    have e : cs1 ++ ApiCall.resize_rga_init a :: (cs2 ++ [c]) = cs ++ [c] := by simp [hcs]
    rw [e]
    exact hin
  · exact h5 p hp

theorem cachedInv_snoc_same (drv : Driver) (cs : List ApiCall) (c : ApiCall)
    (ih : CachedInv drv cs)
    (hst : (step drv (run drv cs World.init) c).statics = (run drv cs World.init).statics)
    (hn : (registered (step drv (run drv cs World.init) c).trace).Nodup)
    (hmem : ∀ x, x ∈ registered (run drv cs World.init).trace →
      x ∈ registered (step drv (run drv cs World.init) c).trace) :
    CachedInv drv (cs ++ [c]) := by
  have hrun := run_snoc drv cs c World.init
  refine ⟨by rw [hrun]; exact hn, ?_⟩
  intro hin
  have hin0 : (run drv cs World.init).statics.inited = true := by
    rw [hrun, hst] at hin
    exact hin
  obtain ⟨a1, a2, a3, a4, a5, a6⟩ := ih.2 hin0
  have hs : (run drv (cs ++ [c]) World.init).statics = (run drv cs World.init).statics := by
    rw [hrun, hst]
  refine ⟨?_, ?_, ?_, ?_, ?_, ?_⟩
  · rw [hs]; exact a1
  · rw [hs]; exact a2
  · rw [hs]; exact a3
  · rw [hs, hrun]; exact hmem _ a4
  · rw [hs, hrun]; exact hmem _ a5
  · exact setByInit_snoc drv cs c a6 (by rw [hs]) (by rw [hs]) hin

theorem cachedInv_holds (drv : Driver) (hfresh : HandsOutFreshHandles drv)
    (cs : List ApiCall) : CachedInv drv cs := by
  induction cs using List.reverseRecOn with
  | nil =>
    refine ⟨by simp [run, World.init, registered], ?_⟩
    intro h
    simp [run, World.init] at h
  | append_singleton cs c ih =>
    have hrun := run_snoc drv cs c World.init
    cases c with
    | resize_rga a =>
      exact cachedInv_snoc_same drv cs _ ih (resize_rga_statics drv a _)
        (resize_rga_nodup drv hfresh a _ ih.1) (fun x hx => resize_rga_mem drv a _ x hx)
    | resize_rga_frame =>
      have h := resize_rga_frame_registered drv (run drv cs World.init)
      refine cachedInv_snoc_same drv cs _ ih h.1 ?_ ?_
      · simp only [step]
        rw [h.2]
        exact ih.1
      · intro x hx
        simp only [step]
        rw [h.2]
        exact hx
    | resize_rga_deinit =>
      refine ⟨by rw [hrun]; exact resize_rga_deinit_nodup _ ih.1, ?_⟩
      intro hin
      rw [hrun] at hin
      simp only [step] at hin
      rw [resize_rga_deinit_inited] at hin
      exact absurd hin (by decide)
    | resize_rga_init a =>
      cases h0 : (run drv cs World.init).statics.inited with
      | true =>
        have hid : (resize_rga_init drv a (run drv cs World.init)).2 = run drv cs World.init := by
          simp [resize_rga_init, h0]
        refine cachedInv_snoc_same drv cs _ ih ?_ ?_ ?_
        · simp only [step]
          rw [hid]
        · simp only [step]
          rw [hid]
          exact ih.1
        · intro x hx
          simp only [step]
          rw [hid]
          exact hx
      | false =>
        refine ⟨by rw [hrun]; exact resize_rga_init_nodup drv hfresh a _ ih.1, ?_⟩
        intro hin
        have hset : (resize_rga_init drv a (run drv cs World.init)).2.statics.inited = true := by
          rw [hrun] at hin
          exact hin
        obtain ⟨hs, hd, _, _, e1, e2, _, e4⟩ :=
          resize_rga_init_sets_flag drv a (run drv cs World.init) h0 hset
        have hdist := handles_distinct drv hfresh a (run drv cs World.init).trace hs hd
        have hw : run drv (cs ++ [ApiCall.resize_rga_init a]) World.init =
            (resize_rga_init drv a (run drv cs World.init)).2 := hrun
        refine ⟨?_, ?_, ?_, ?_, ?_, ?_⟩
        · rw [hw, e1]; exact hs
        · rw [hw, e2]; exact hd
        · rw [hw, e1, e2]; exact hdist.1
        · rw [hw, e1, e4]; simp
        · rw [hw, e2, e4]; simp
        · refine ⟨cs, a, [], rfl, h0, hset, ?_, ?_, ?_⟩
          · rw [hw, e1]
          · rw [hw, e2]
          · intro p hp
            have : p = [] := by simpa using hp
            subst this
            exact hin

theorem natAbs_le_sum (l : List Int) (x : Int) (hx : x ∈ l) :
    x.natAbs ≤ (l.map Int.natAbs).sum := by
  induction l with
  | nil => simp at hx
  | cons y ys ih =>
    rcases List.mem_cons.mp hx with h | h
    · subst h
      simp
    · have := ih h
      simp only [List.map_cons, List.sum_cons]
      omega

theorem countingDriver_fresh (chk st : Int) : HandsOutFreshHandles (countingDriver chk st) := by
  intro t va size
  right
  intro hmem
  have h := natAbs_le_sum (registered t) _ hmem
  simp only [countingDriver] at h
  omega

/-- C10: invariant of the worlds reached from the initial one, against a
driver that hands out fresh handles.  After any sequence cs of resize_rga,
resize_rga_init, resize_rga_frame and resize_rga_deinit calls no handle is
registered twice, and whenever the flag is set: both cached handles are
non-null, distinct and registered; they are the handles returned by the two
imports of one resize_rga_init call of cs, made with the flag clear, which
set the flag, the flag having stayed set since; and resize_rga_deinit then
makes exactly the two calls release(cached source handle), release(cached
destination handle), each on a handle registered at that moment, after which
neither is registered.  Whenever the flag is clear, resize_rga_deinit releases
nothing, and a resize_rga_init that sets the flag followed by
resize_rga_deinit imports two fresh, non-null, distinct handles and releases
exactly these two, once each, leaving the registered handles as they were. -/
theorem cached_handles_invariant (drv : Driver) (hfresh : HandsOutFreshHandles drv)
    (cs : List ApiCall) (w : World) (hw : w = run drv cs World.init) :
    (registered w.trace).Nodup ∧
    (w.statics.inited = true →
      w.statics.hsrc ≠ 0 ∧ w.statics.hdst ≠ 0 ∧ w.statics.hsrc ≠ w.statics.hdst ∧
      w.statics.hsrc ∈ registered w.trace ∧ w.statics.hdst ∈ registered w.trace ∧
      (∃ (cs1 : List ApiCall) (a : Args) (cs2 : List ApiCall),
        cs = cs1 ++ ApiCall.resize_rga_init a :: cs2 ∧
        (run drv cs1 World.init).statics.inited = false ∧
        (resize_rga_init drv a (run drv cs1 World.init)).2.statics.inited = true ∧
        (resize_rga_init drv a (run drv cs1 World.init)).2.trace =
          (run drv cs1 World.init).trace ++
            [Event.importbuffer_virtualaddr a.src_va (srcSize a) w.statics.hsrc,
             Event.importbuffer_virtualaddr a.dst_va (dstSize a) w.statics.hdst,
             Event.wrapbuffer_handle w.statics.hsrc a.src_w a.src_h a.src_fmt,
             Event.wrapbuffer_handle w.statics.hdst a.dst_w a.dst_h a.dst_fmt,
             checkEvent drv a (run drv cs1 World.init).trace] ∧
        ∀ p : List ApiCall, p <+: cs2 →
          (run drv (cs1 ++ ApiCall.resize_rga_init a :: p) World.init).statics.inited = true) ∧
      (resize_rga_deinit w).trace = w.trace ++
        [Event.releasebuffer_handle w.statics.hsrc, Event.releasebuffer_handle w.statics.hdst] ∧
      w.statics.hdst ∈ registered (w.trace ++ [Event.releasebuffer_handle w.statics.hsrc]) ∧
      w.statics.hsrc ∉ registered (resize_rga_deinit w).trace ∧
      w.statics.hdst ∉ registered (resize_rga_deinit w).trace) ∧
    (w.statics.inited = false →
      resize_rga_deinit w = w ∧
      ∀ a : Args, (resize_rga_init drv a w).2.statics.inited = true →
        (resize_rga_deinit (resize_rga_init drv a w).2).trace = w.trace ++
          [Event.importbuffer_virtualaddr a.src_va (srcSize a) (srcHandle drv a w.trace),
           Event.importbuffer_virtualaddr a.dst_va (dstSize a) (dstHandle drv a w.trace),
           Event.wrapbuffer_handle (srcHandle drv a w.trace) a.src_w a.src_h a.src_fmt,
           Event.wrapbuffer_handle (dstHandle drv a w.trace) a.dst_w a.dst_h a.dst_fmt,
           checkEvent drv a w.trace,
           Event.releasebuffer_handle (srcHandle drv a w.trace),
           Event.releasebuffer_handle (dstHandle drv a w.trace)] ∧
        srcHandle drv a w.trace ≠ 0 ∧ dstHandle drv a w.trace ≠ 0 ∧
        srcHandle drv a w.trace ≠ dstHandle drv a w.trace ∧
        srcHandle drv a w.trace ∉ registered w.trace ∧
        dstHandle drv a w.trace ∉ registered w.trace ∧
        importedHandles (newEvents w (resize_rga_deinit (resize_rga_init drv a w).2)) =
          [srcHandle drv a w.trace, dstHandle drv a w.trace] ∧
        releasedHandles (newEvents w (resize_rga_deinit (resize_rga_init drv a w).2)) =
          [srcHandle drv a w.trace, dstHandle drv a w.trace] ∧
        registered (resize_rga_deinit (resize_rga_init drv a w).2).trace =
          registered w.trace) := by
  subst hw
  have inv := cachedInv_holds drv hfresh cs
  refine ⟨inv.1, ?_, ?_⟩
  · intro hin
    obtain ⟨a1, a2, a3, a4, a5, cs1, a, cs2, hcs, h1, h2, h3, h4, h5⟩ := inv.2 hin
    have hde : resize_rga_deinit (run drv cs World.init) =
        ⟨{ (run drv cs World.init).statics with inited := false },
          (run drv cs World.init).trace ++
            [Event.releasebuffer_handle (run drv cs World.init).statics.hsrc,
             Event.releasebuffer_handle (run drv cs World.init).statics.hdst]⟩ := by
      simp [resize_rga_deinit, hin]
    have hreg : registered (resize_rga_deinit (run drv cs World.init)).trace =
        ((registered (run drv cs World.init).trace).erase
          (run drv cs World.init).statics.hsrc).erase (run drv cs World.init).statics.hdst := by
      rw [hde, registered_append]
      simp [regStep]
    have hn1 : ((registered (run drv cs World.init).trace).erase
        (run drv cs World.init).statics.hsrc).Nodup := inv.1.erase _
    refine ⟨a1, a2, a3, a4, a5, ⟨cs1, a, cs2, hcs, h1, h2, ?_, h5⟩, ?_, ?_, ?_, ?_⟩
    · obtain ⟨_, _, _, _, _, _, e3, _⟩ :=
        resize_rga_init_sets_flag drv a (run drv cs1 World.init) h1 h2
      rw [e3, h3, h4]
      simp [srcImport, dstImport]
    · rw [hde]
    · rw [registered_snoc]
      simp only [regStep]
      exact (inv.1.mem_erase_iff).mpr ⟨fun h => a3 h.symm, a5⟩
    · rw [hreg]
      intro h
      have h' := List.mem_of_mem_erase h
      exact ((inv.1.mem_erase_iff).mp h').1 rfl
    · rw [hreg]
      intro h
      exact ((hn1.mem_erase_iff).mp h).1 rfl
  · intro hclear
    have hid : resize_rga_deinit (run drv cs World.init) = run drv cs World.init := by
      simp [resize_rga_deinit, hclear]
    refine ⟨hid, ?_⟩
    intro a hset
    obtain ⟨hs, hd, _, _, e1, e2, e3, e4⟩ :=
      resize_rga_init_sets_flag drv a (run drv cs World.init) hclear hset
    have hdist := handles_distinct drv hfresh a (run drv cs World.init).trace hs hd
    have htr : (resize_rga_deinit (resize_rga_init drv a (run drv cs World.init)).2).trace =
        (run drv cs World.init).trace ++
          [Event.importbuffer_virtualaddr a.src_va (srcSize a)
             (srcHandle drv a (run drv cs World.init).trace),
           Event.importbuffer_virtualaddr a.dst_va (dstSize a)
             (dstHandle drv a (run drv cs World.init).trace),
           Event.wrapbuffer_handle (srcHandle drv a (run drv cs World.init).trace)
             a.src_w a.src_h a.src_fmt,
           Event.wrapbuffer_handle (dstHandle drv a (run drv cs World.init).trace)
             a.dst_w a.dst_h a.dst_fmt,
           checkEvent drv a (run drv cs World.init).trace,
           Event.releasebuffer_handle (srcHandle drv a (run drv cs World.init).trace),
           Event.releasebuffer_handle (dstHandle drv a (run drv cs World.init).trace)] := by
      simp [resize_rga_deinit, hset, e1, e2, e3, srcImport, dstImport]
    refine ⟨htr, hs, hd, hdist.1, hdist.2.1, hdist.2.2, ?_, ?_, ?_⟩
    · rw [newEvents_append _ _ _ htr]
      simp [importedHandles, checkEvent, hs, hd]
    · rw [newEvents_append _ _ _ htr]
      simp [releasedHandles, checkEvent]
    · rw [htr, registered_append]
      simp only [List.foldl_cons, List.foldl_nil, regStep, checkEvent, hs, hd, if_false]
      exact erase_pair _ _ _

/-- Witness of C10: against the counting driver, init, then a one-shot resize,
then a frame; the flag is set and the cached handles 1 and 2 are registered. -/
theorem cached_handles_invariant_witness :
    HandsOutFreshHandles (countingDriver IM_STATUS_NOERROR IM_STATUS_SUCCESS) ∧
    (run (countingDriver IM_STATUS_NOERROR IM_STATUS_SUCCESS)
      [ApiCall.resize_rga_init sampleArgs, ApiCall.resize_rga sampleArgs,
       ApiCall.resize_rga_frame] World.init).statics.inited = true ∧
    (1 : Int) ∈ registered (run (countingDriver IM_STATUS_NOERROR IM_STATUS_SUCCESS)
      [ApiCall.resize_rga_init sampleArgs, ApiCall.resize_rga sampleArgs,
       ApiCall.resize_rga_frame] World.init).trace ∧
    (2 : Int) ∈ registered (run (countingDriver IM_STATUS_NOERROR IM_STATUS_SUCCESS)
      [ApiCall.resize_rga_init sampleArgs, ApiCall.resize_rga sampleArgs,
       ApiCall.resize_rga_frame] World.init).trace :=
  have h := (cached_handles_invariant (countingDriver IM_STATUS_NOERROR IM_STATUS_SUCCESS)
    (countingDriver_fresh _ _)
    [ApiCall.resize_rga_init sampleArgs, ApiCall.resize_rga sampleArgs,
     ApiCall.resize_rga_frame] _ rfl).2.1 (by decide)
  ⟨countingDriver_fresh _ _, by decide, h.2.2.2.1, h.2.2.2.2.1⟩

end RgaResize
